import Mathlib

/-!
Shallow embedding of the invisible-watermark API (src/main.py and
src/watermark_adapters.py) and proofs about its specification claims.

External collaborators (cv2 decode/encode/resize/DCT, the blind_watermark
and trustmark engines, the filesystem and request transport) are modelled
as explicit inputs: an image is represented by the data those external
calls hand to the repository's own code (its dimensions and the
low-frequency 8x8 DCT coefficient block its pHash consumes), and each
external call's outcome is an explicit parameter.
-/

/- ### Hex formatting and parsing (`f"{v:016x}"` and `int(s, 16)`) -/

/-- One lowercase hex digit, as Python's `x` format produces. -/
def hexDigitChar (n : Nat) : Char :=
  if n < 10 then Char.ofNat (48 + n) else Char.ofNat (87 + n)

/-- `k` hex digits of `v`, most significant first (zero padded). -/
def toHexAux : Nat → Nat → List Char
  | 0, _ => []
  | k + 1, v => toHexAux k (v / 16) ++ [hexDigitChar (v % 16)]

/-- Python `f"{v:016x}"` for `v < 2^64`: 16 lowercase hex digits. -/
def toHex16 (v : Nat) : String := String.mk (toHexAux 16 v)

/-- Value of one hex digit, as Python's `int(s, 16)` reads it. -/
def hexDigitToNat (c : Char) : Nat :=
  if 48 ≤ c.toNat ∧ c.toNat ≤ 57 then c.toNat - 48
  else if 97 ≤ c.toNat ∧ c.toNat ≤ 102 then c.toNat - 87
  else if 65 ≤ c.toNat ∧ c.toNat ≤ 70 then c.toNat - 55
  else 0

def hexListVal (l : List Char) : Nat :=
  l.foldl (fun acc c => 16 * acc + hexDigitToNat c) 0

/-- Python `int(s, 16)` on a plain hex string. -/
def hexToNat (s : String) : Nat := hexListVal s.data

/- ### Population count (`int.bit_count`) -/

/-- Fuel-indexed popcount; the fuel only needs to dominate the value. -/
def popCountAux : Nat → Nat → Nat
  | 0, _ => 0
  | _ + 1, 0 => 0
  | fuel + 1, n + 1 => (n + 1) % 2 + popCountAux fuel ((n + 1) / 2)

/-- Python `int.bit_count`: number of set bits. -/
def popCount (n : Nat) : Nat := popCountAux n n

/-- `src/main.py` `hamming_distance_hex`: parse both hex strings and count
the set bits of their XOR. -/
def hamming_distance_hex (a b : String) : Nat :=
  popCount (hexToNat a ^^^ hexToNat b)

/- ### Lemmas about popCount -/

theorem popCountAux_zero (f : Nat) : popCountAux f 0 = 0 := by
  cases f <;> rfl

theorem popCountAux_congr :
    ∀ (n f g : Nat), n ≤ f → n ≤ g → popCountAux f n = popCountAux g n := by
  intro n
  induction n using Nat.strong_induction_on with
  | _ n ih =>
    intro f g hf hg
    match n, f, g, hf, hg with
    | 0, f, g, _, _ => rw [popCountAux_zero, popCountAux_zero]
    | m + 1, f + 1, g + 1, hf, hg =>
      show (m + 1) % 2 + popCountAux f ((m + 1) / 2) =
           (m + 1) % 2 + popCountAux g ((m + 1) / 2)
      have hlt : (m + 1) / 2 < m + 1 := by omega
      have h1 : (m + 1) / 2 ≤ f := by omega
      have h2 : (m + 1) / 2 ≤ g := by omega
      rw [ih _ hlt f ((m + 1) / 2) h1 (le_refl _),
          ih _ hlt g ((m + 1) / 2) h2 (le_refl _)]

theorem popCount_of_ne_zero (n : Nat) (h : n ≠ 0) :
    popCount n = n % 2 + popCount (n / 2) := by
  obtain ⟨m, rfl⟩ : ∃ m, n = m + 1 := ⟨n - 1, by omega⟩
  show (m + 1) % 2 + popCountAux m ((m + 1) / 2) = _
  congr 1
  exact popCountAux_congr ((m + 1) / 2) m ((m + 1) / 2) (by omega) (le_refl _)

theorem popCount_le_of_lt_two_pow :
    ∀ (k n : Nat), n < 2 ^ k → popCount n ≤ k := by
  intro k
  induction k with
  | zero =>
    intro n hn
    have : n = 0 := by simpa using hn
    subst this
    simp [popCount, popCountAux]
  | succ k ih =>
    intro n hn
    by_cases h : n = 0
    · subst h; simp [popCount, popCountAux]
    · rw [popCount_of_ne_zero n h]
      have hdiv : n / 2 < 2 ^ k := by
        have : (2:Nat) ^ (k + 1) = 2 * 2 ^ k := by ring
        omega
      have := ih (n / 2) hdiv
      omega

theorem popCount_eq_zero_iff : ∀ (n : Nat), popCount n = 0 ↔ n = 0 := by
  intro n
  induction n using Nat.strong_induction_on with
  | _ n ih =>
    by_cases h : n = 0
    · subst h; simp [popCount, popCountAux]
    · rw [popCount_of_ne_zero n h]
      constructor
      · intro hsum
        have hm : n % 2 = 0 := by omega
        have hp : popCount (n / 2) = 0 := by omega
        have hd : n / 2 = 0 := (ih (n / 2) (by omega)).mp hp
        omega
      · intro hn; exact absurd hn h

theorem xor_lt_two_pow' {a b n : Nat} (ha : a < 2 ^ n) (hb : b < 2 ^ n) :
    a ^^^ b < 2 ^ n :=
  Nat.bitwise_lt ha hb

/- ### Hex roundtrip -/

theorem hexDigit_roundtrip : ∀ m, m < 16 → hexDigitToNat (hexDigitChar m) = m := by
  decide

theorem hexListVal_toHexAux :
    ∀ (k v : Nat), v < 16 ^ k → hexListVal (toHexAux k v) = v := by
  intro k
  induction k with
  | zero =>
    intro v hv
    have : v = 0 := by simpa using hv
    subst this
    rfl
  | succ k ih =>
    intro v hv
    have hdiv : v / 16 < 16 ^ k := by
      have : (16:Nat) ^ (k + 1) = 16 ^ k * 16 := by ring
      omega
    show hexListVal (toHexAux k (v / 16) ++ [hexDigitChar (v % 16)]) = v
    unfold hexListVal
    rw [List.foldl_append]
    have hbase : (toHexAux k (v / 16)).foldl
        (fun acc c => 16 * acc + hexDigitToNat c) 0 = v / 16 := ih (v / 16) hdiv
    rw [hbase]
    simp only [List.foldl_cons, List.foldl_nil]
    rw [hexDigit_roundtrip (v % 16) (by omega)]
    omega

theorem hexToNat_toHex16 (v : Nat) (h : v < 2 ^ 64) : hexToNat (toHex16 v) = v := by
  have h16 : (16:Nat) ^ 16 = 2 ^ 64 := by norm_num
  exact hexListVal_toHexAux 16 v (by omega)

/-- C3: the distance between two 64-bit fingerprints is the population
count of the XOR of their values, lies in [0, 64], is symmetric, and is
zero exactly when the fingerprints are bit-identical. -/
theorem c3_hamming_distance_props (a b : Nat) (ha : a < 2 ^ 64) (hb : b < 2 ^ 64) :
    hamming_distance_hex (toHex16 a) (toHex16 b) = popCount (a ^^^ b)
  ∧ hamming_distance_hex (toHex16 a) (toHex16 b) ≤ 64
  ∧ hamming_distance_hex (toHex16 a) (toHex16 b)
      = hamming_distance_hex (toHex16 b) (toHex16 a)
  ∧ (hamming_distance_hex (toHex16 a) (toHex16 b) = 0 ↔ a = b) := by
  have ra := hexToNat_toHex16 a ha
  have rb := hexToNat_toHex16 b hb
  have h1 : hamming_distance_hex (toHex16 a) (toHex16 b) = popCount (a ^^^ b) := by
    unfold hamming_distance_hex
    rw [ra, rb]
  refine ⟨h1, ?_, ?_, ?_⟩
  · rw [h1]
    exact popCount_le_of_lt_two_pow 64 _ (xor_lt_two_pow' ha hb)
  · unfold hamming_distance_hex
    rw [ra, rb, Nat.xor_comm]
  · rw [h1, popCount_eq_zero_iff, Nat.xor_eq_zero]

/-- Witness for C3 at concrete fingerprints. -/
theorem c3_hamming_distance_props_witness :
    (3 : Nat) < 2 ^ 64 ∧ (5 : Nat) < 2 ^ 64
  ∧ hamming_distance_hex (toHex16 3) (toHex16 5) ≤ 64 :=
  ⟨by norm_num, by norm_num, (c3_hamming_distance_props 3 5 (by norm_num) (by norm_num)).2.1⟩

/- ### Perceptual hash (`src/main.py` `phash`) -/

/-- Insertion of one value into a sorted list (ascending). -/
def insertLe (x : Rat) : List Rat → List Rat
  | [] => [x]
  | y :: ys => if x ≤ y then x :: y :: ys else y :: insertLe x ys

def sortRat (l : List Rat) : List Rat := l.foldr insertLe []

/-- `np.median`: sort the flattened values; middle element for odd length,
mean of the two middle elements for even length. -/
def npMedian (xs : List Rat) : Rat :=
  if (sortRat xs).length % 2 = 1 then
    (sortRat xs).getD ((sortRat xs).length / 2) 0
  else
    ((sortRat xs).getD ((sortRat xs).length / 2 - 1) 0
      + (sortRat xs).getD ((sortRat xs).length / 2) 0) / 2

/-- `med = np.median(block[1:])`: the source drops the first row of the
8x8 block before taking the median. -/
def phashMedian (block : List (List Rat)) : Rat :=
  npMedian (block.drop 1).flatten

/-- `bits = (block > med).astype(np.uint8).flatten()`: row-major threshold
bits of every coefficient of the block (strict greater-than). -/
def thresholdBits (block : List (List Rat)) (med : Rat) : List Bool :=
  block.flatten.map (fun x => decide (med < x))

/-- `v = (v << 1) | int(b)` over the bits, most significant first. -/
def packBits (bits : List Bool) : Nat :=
  bits.foldl (fun v b => 2 * v + (if b then 1 else 0)) 0

/-- The 64-bit integer value packed by `phash`. -/
def phashVal (block : List (List Rat)) : Nat :=
  packBits (thresholdBits block (phashMedian block))

/-- Spec variant for comparison (the spec and the source comment say the
median excludes only the zero-frequency/DC coefficient): median over the
flattened block with just its first entry dropped. -/
def phashMedianSpecDC (block : List (List Rat)) : Rat :=
  npMedian (block.flatten.drop 1)

/-- Spec-variant packed value. -/
def phashValSpecDC (block : List (List Rat)) : Nat :=
  packBits (thresholdBits block (phashMedianSpecDC block))

/-- An image as the repository's own code sees it: its dimensions and the
low-frequency 8x8 DCT block produced by the external cv2 gray/resize/DCT
chain. -/
structure Image where
  height : Nat
  width : Nat
  dctBlock : List (List Rat)
deriving DecidableEq

/-- `src/main.py` `phash`: hex string of the packed threshold bits. -/
def phash (img : Image) : String := toHex16 (phashVal img.dctBlock)

/-- A DCT block on which the row-dropping median and the DC-only-excluded
median disagree: rows 1..7 hold one 14, 27 zeros and 28 twenties (their
median is 17), while the full block minus the DC term adds the seven 20s
of row 0 (median 20). -/
def bugBlock : List (List Rat) :=
  [[0, 20, 20, 20, 20, 20, 20, 20],
   [14, 20, 20, 20, 20, 0, 0, 0],
   [20, 20, 20, 20, 20, 20, 20, 20],
   [20, 20, 20, 20, 20, 20, 20, 20],
   [20, 20, 20, 20, 20, 20, 20, 20],
   [0, 0, 0, 0, 0, 0, 0, 0],
   [0, 0, 0, 0, 0, 0, 0, 0],
   [0, 0, 0, 0, 0, 0, 0, 0]]

/-- Rows 1..7 of `bugBlock`, sorted ascending: 27 zeros, one 14, 28 twenties. -/
def sorted56 : List Rat :=
  List.replicate 27 0 ++ 14 :: List.replicate 28 20

set_option maxRecDepth 4000 in
theorem sortRat_bugBlock_tail : sortRat (List.drop 1 bugBlock).flatten = sorted56 := by
  decide

set_option maxRecDepth 4000 in
theorem bugBlock_median_code : phashMedian bugBlock = 17 := by
  unfold phashMedian npMedian
  rw [sortRat_bugBlock_tail]
  rw [show sorted56.length = 56 from by decide]
  rw [if_neg (by decide)]
  rw [show sorted56.getD (56 / 2 - 1) 0 = 14 from by decide]
  rw [show sorted56.getD (56 / 2) 0 = 20 from by decide]
  norm_num

set_option maxRecDepth 4000 in
theorem bugBlock_median_spec : phashMedianSpecDC bugBlock = 20 := by
  decide

set_option maxRecDepth 100000 in
/-- C2: the code computes the threshold median over `block[1:]` — the 8x8
block with its whole first row removed (56 coefficients) — although its
own comment and the spec say only the zero-frequency (DC) coefficient is
excluded (63 coefficients). On `bugBlock` the code median is 17 while the
DC-only-excluded median is 20, so the packed 64-bit fingerprints differ. -/
theorem c2_phash_median_drops_first_row :
    phashMedian bugBlock = 17
  ∧ phashMedianSpecDC bugBlock = 20
  ∧ phashValSpecDC bugBlock = 0
  ∧ phashVal bugBlock ≠ phashValSpecDC bugBlock := by
  have hval : phashVal bugBlock = packBits (thresholdBits bugBlock 17) := by
    unfold phashVal
    rw [bugBlock_median_code]
  have hvalSpec : phashValSpecDC bugBlock = packBits (thresholdBits bugBlock 20) := by
    unfold phashValSpecDC
    rw [bugBlock_median_spec]
  refine ⟨bugBlock_median_code, bugBlock_median_spec, ?_, ?_⟩
  · rw [hvalSpec]
    decide
  · rw [hval, hvalSpec]
    decide

/- ### Record store (`DB[watermark_id] = {...}` in `src/main.py`) -/

/-- A value stored in a record's dict. -/
inductive FieldValue where
  | vStr : String → FieldValue
  | vNat : Nat → FieldValue
  | vShape : Nat × Nat → FieldValue
deriving DecidableEq

/-- A persisted record: the dict literal of `src/main.py` lines 136-142,
as an ordered key/value list. -/
def Record := List (String × FieldValue)

instance : DecidableEq Record := inferInstanceAs (DecidableEq (List (String × FieldValue)))

/-- The in-memory store `DB: watermark_id -> record`. -/
def DB := List (String × Record)

instance : DecidableEq DB := inferInstanceAs (DecidableEq (List (String × Record)))

/-- The record inserted by `embed_endpoint`, field for field. -/
def mkRecord (wmText : String) (wmLen : Nat) (ph : String)
    (shape : Nat × Nat) (filePath : String) : Record :=
  [("wm_text", .vStr wmText), ("wm_len", .vNat wmLen), ("phash", .vStr ph),
   ("shape", .vShape shape), ("file_path", .vStr filePath)]

/-- `record[key]` / `record.get(key)`. -/
def recGet (r : Record) (k : String) : Option FieldValue :=
  (List.find? (fun p => p.1 == k) r).map (fun p => p.2)

/-- String-valued field access. -/
def recGetStr (r : Record) (k : String) : Option String :=
  match recGet r k with
  | some (.vStr s) => some s
  | _ => none

/-- Nat-valued field access. -/
def recGetNat (r : Record) (k : String) : Option Nat :=
  match recGet r k with
  | some (.vNat n) => some n
  | _ => none

/-- `DB.get(watermark_id)`. -/
def dbGet (db : DB) (k : String) : Option Record :=
  (List.find? (fun p => p.1 == k) db).map (fun p => p.2)

/- ### Embed orchestrator (`src/main.py` `embed_endpoint`) -/

/-- All external-collaborator outcomes an embed call consumes:
the decoded upload, the form payload, the random tokens drawn, the
backend-reported watermark bit length, the re-decoded embedded output,
the PNG/base64 encoding of it, and the request base URL. -/
structure EmbedInput where
  imgDecode : Option Image
  wmTextOpt : Option String
  uuidWm : String
  uuidId : String
  wmLen : Nat
  reDecoded : Option Image
  pngB64 : Option String
  baseUrl : String
deriving DecidableEq

structure EmbedResponse where
  watermark_id : String
  wm_len : Nat
  watermarked_image_base64 : String
  message : String
  file_url : Option String
deriving DecidableEq

inductive EmbedResult where
  | httpError : Nat → String → EmbedResult
  | ok : EmbedResponse → EmbedResult
deriving DecidableEq

/-- `src/main.py` `embed_endpoint`: decode the upload (400 on failure),
synthesize a payload when the form field is falsy, run the external embed,
re-decode its output (500 on failure, store untouched), compute the
reference pHash, mint the identity, insert the record, then PNG-encode
the response (500 on failure — after the insert, as in the source). -/
def embed_endpoint (db : DB) (inp : EmbedInput) : EmbedResult × DB :=
  match inp.imgDecode with
  | none => (.httpError 400 "Invalid image file", db)
  | some img =>
    let wmText := if inp.wmTextOpt = none ∨ inp.wmTextOpt = some "" then
        "WM-" ++ inp.uuidWm
      else inp.wmTextOpt.getD ""
    match inp.reDecoded with
    | none => (.httpError 500 "Embedded image not readable", db)
    | some embedded =>
      let refPh := phash embedded
      let watermarkId := inp.uuidId
      let persistPath := "storage/embeds/" ++ watermarkId ++ ".png"
      let fileUrl := inp.baseUrl ++ "/files/embeds/" ++ watermarkId ++ ".png"
      let db2 : DB :=
        (watermarkId, mkRecord wmText inp.wmLen refPh (img.height, img.width) persistPath) :: db
      match inp.pngB64 with
      | none => (.httpError 500 "PNG encoding failed", db2)
      | some b64 =>
        (.ok { watermark_id := watermarkId, wm_len := inp.wmLen,
               watermarked_image_base64 := b64,
               message := "Watermark embedded successfully.",
               file_url := some fileUrl }, db2)

/-- An all-zero 8x8 DCT block for concrete witnesses. -/
def zeroBlock : List (List Rat) := List.replicate 8 (List.replicate 8 0)

/-- A concrete decoded image for witnesses. -/
def sampleImage : Image := ⟨4, 6, zeroBlock⟩

/-- A fully concrete embed input on which every external call succeeds. -/
def sampleEmbedInput : EmbedInput :=
  { imgDecode := some sampleImage
    wmTextOpt := some "payload"
    uuidWm := "11111111-2222"
    uuidId := "aaaa-bbbb"
    wmLen := 255
    reDecoded := some sampleImage
    pngB64 := some "iVBOR"
    baseUrl := "http://127.0.0.1:8000" }

/-- C6: when the upload decodes but the re-decode of the backend's output
fails, embed fails with the 500 server error and leaves the store
unchanged — no record is inserted. -/
theorem c6_redecode_failure_no_record (db : DB) (inp : EmbedInput) (img : Image)
    (h1 : inp.imgDecode = some img) (h2 : inp.reDecoded = none) :
    embed_endpoint db inp = (.httpError 500 "Embedded image not readable", db) := by
  unfold embed_endpoint
  rw [h1, h2]

/-- Witness for C6 at a concrete input. -/
theorem c6_redecode_failure_no_record_witness :
    embed_endpoint [] { sampleEmbedInput with reDecoded := none }
      = (.httpError 500 "Embedded image not readable", []) :=
  c6_redecode_failure_no_record [] { sampleEmbedInput with reDecoded := none }
    sampleImage rfl rfl

/-- C1 counterexample: the record actually persisted by a successful embed
carries exactly the keys wm_text, wm_len, phash, shape and file_path —
there is no adapter_type field. -/
theorem c1_record_without_adapter_type :
    ((embed_endpoint [] sampleEmbedInput).2.map (fun p => p.2.map Prod.fst))
        = [["wm_text", "wm_len", "phash", "shape", "file_path"]]
  ∧ ∀ r ∈ (embed_endpoint [] sampleEmbedInput).2.map (fun p => p.2.map Prod.fst),
      "adapter_type" ∉ r := by
  constructor
  · rfl
  · intro r hr
    simp only [show (embed_endpoint [] sampleEmbedInput).2.map (fun p => p.2.map Prod.fst)
        = [["wm_text", "wm_len", "phash", "shape", "file_path"]] from rfl] at hr
    simp only [List.mem_singleton] at hr
    subst hr
    decide

/-- On any successful decode and re-decode, the store after embed is the
inserted record consed onto the old store (whatever the PNG encode does). -/
theorem embed_endpoint_db (db : DB) (inp : EmbedInput) (img embedded : Image)
    (h1 : inp.imgDecode = some img) (h2 : inp.reDecoded = some embedded) :
    (embed_endpoint db inp).2 =
      (inp.uuidId,
        mkRecord
          (if inp.wmTextOpt = none ∨ inp.wmTextOpt = some "" then
              "WM-" ++ inp.uuidWm
            else inp.wmTextOpt.getD "")
          inp.wmLen (phash embedded) (img.height, img.width)
          ("storage/embeds/" ++ inp.uuidId ++ ".png")) :: db := by
  rcases hpng : inp.pngB64 with _ | b64 <;>
    simp [embed_endpoint, h1, h2, hpng]

theorem recGetStr_mkRecord_wm_text (a : String) (b : Nat) (c : String)
    (d : Nat × Nat) (e : String) :
    recGetStr (mkRecord a b c d e) "wm_text" = some a := rfl

/-- C1 amended: every record inserted by embed has exactly the five keys
wm_text, wm_len, phash, shape, file_path (in particular no adapter_type);
both endpoints hard-code the same blind_watermark backend, so nothing
backend-identifying is persisted per identity. -/
theorem c1_amended_record_keys (db : DB) (inp : EmbedInput) (img : Image)
    (h1 : inp.imgDecode = some img) :
    ∀ embedded, inp.reDecoded = some embedded →
      ∃ r, (embed_endpoint db inp).2 = (inp.uuidId, r) :: db
        ∧ r.map Prod.fst = ["wm_text", "wm_len", "phash", "shape", "file_path"]
        ∧ "adapter_type" ∉ r.map Prod.fst := by
  intro embedded h2
  refine ⟨_, embed_endpoint_db db inp img embedded h1 h2, rfl, ?_⟩
  show "adapter_type" ∉ ["wm_text", "wm_len", "phash", "shape", "file_path"]
  decide

/-- Witness for the amended C1 at a concrete input. -/
theorem c1_amended_record_keys_witness :
    ∃ r, (embed_endpoint [] sampleEmbedInput).2 = (sampleEmbedInput.uuidId, r) :: []
      ∧ r.map Prod.fst = ["wm_text", "wm_len", "phash", "shape", "file_path"]
      ∧ "adapter_type" ∉ r.map Prod.fst :=
  c1_amended_record_keys [] sampleEmbedInput sampleImage rfl sampleImage rfl

/-- C10: when the caller-supplied payload is missing or the empty string,
embed stores the synthesized non-empty payload WM-<uuid> in the record;
an empty-string payload behaves exactly like a missing one; and every
inserted record's payload is non-empty. -/
theorem c10_empty_payload_synthesized (db : DB) (inp : EmbedInput) (img : Image)
    (h1 : inp.imgDecode = some img) :
    ((inp.wmTextOpt = none ∨ inp.wmTextOpt = some "") →
      ∀ embedded, inp.reDecoded = some embedded →
        ∃ r, (embed_endpoint db inp).2 = (inp.uuidId, r) :: db
          ∧ recGetStr r "wm_text" = some ("WM-" ++ inp.uuidWm)
          ∧ "WM-" ++ inp.uuidWm ≠ "")
  ∧ embed_endpoint db { inp with wmTextOpt := some "" }
      = embed_endpoint db { inp with wmTextOpt := none }
  ∧ (∀ embedded, inp.reDecoded = some embedded →
      ∀ r, (embed_endpoint db inp).2 = (inp.uuidId, r) :: db →
        ∀ s, recGetStr r "wm_text" = some s → s ≠ "") := by
  have hne : "WM-" ++ inp.uuidWm ≠ "" := by
    intro hcontra
    have hlen := congrArg String.length hcontra
    rw [String.length_append] at hlen
    have h3 : ("WM-" : String).length = 3 := rfl
    have h0 : ("" : String).length = 0 := rfl
    omega
  refine ⟨?_, ?_, ?_⟩
  · intro hempty embedded h2
    refine ⟨_, embed_endpoint_db db inp img embedded h1 h2, ?_, hne⟩
    rw [if_pos hempty]
    exact recGetStr_mkRecord_wm_text _ _ _ _ _
  · rcases hd : inp.imgDecode with _ | img' <;>
      rcases hr : inp.reDecoded with _ | embedded' <;>
        rcases hpng : inp.pngB64 with _ | b64 <;>
          simp [embed_endpoint, hd, hr, hpng]
  · intro embedded h2 r hr s hs
    rw [embed_endpoint_db db inp img embedded h1 h2] at hr
    have hr2 : r = mkRecord
        (if inp.wmTextOpt = none ∨ inp.wmTextOpt = some "" then
            "WM-" ++ inp.uuidWm
          else inp.wmTextOpt.getD "")
        inp.wmLen (phash embedded) (img.height, img.width)
        ("storage/embeds/" ++ inp.uuidId ++ ".png") := by
      have hcons := (List.cons.injEq _ _ _ _).mp hr.symm
      exact ((Prod.mk.injEq _ _ _ _).mp hcons.1).2
    rw [hr2] at hs
    by_cases hempty : inp.wmTextOpt = none ∨ inp.wmTextOpt = some ""
    · rw [if_pos hempty, recGetStr_mkRecord_wm_text] at hs
      simp only [Option.some.injEq] at hs
      rw [← hs]
      exact hne
    · rw [if_neg hempty, recGetStr_mkRecord_wm_text] at hs
      simp only [Option.some.injEq] at hs
      push_neg at hempty
      obtain ⟨hnone, hnotempty⟩ := hempty
      rcases ht : inp.wmTextOpt with _ | t
      · exact absurd ht hnone
      · rw [ht] at hs hnotempty
        simp only [Option.getD_some] at hs
        rw [← hs]
        intro hcontra
        rw [hcontra] at hnotempty
        exact hnotempty rfl

/-- Witness for C10 at a concrete input with an empty-string payload. -/
theorem c10_empty_payload_synthesized_witness :
    ∃ r, (embed_endpoint [] { sampleEmbedInput with wmTextOpt := some "" }).2
        = ({ sampleEmbedInput with wmTextOpt := some "" }.uuidId, r) :: []
      ∧ recGetStr r "wm_text"
          = some ("WM-" ++ { sampleEmbedInput with wmTextOpt := some "" }.uuidWm)
      ∧ "WM-" ++ { sampleEmbedInput with wmTextOpt := some "" }.uuidWm ≠ "" :=
  (c10_empty_payload_synthesized [] { sampleEmbedInput with wmTextOpt := some "" }
    sampleImage rfl).1 (Or.inr rfl) sampleImage rfl

/- ### Verify orchestrator (`src/main.py` `verify_endpoint`) -/

/-- Outcome of the external `bwm1.extract` call inside the try/except of
step 2: either it raises or it returns a decoded string. -/
inductive ExtractOutcome where
  | throws : ExtractOutcome
  | returns : String → ExtractOutcome
deriving DecidableEq

/-- `try: extracted = bwm1.extract(...) except Exception: extracted = None`. -/
def directResult : ExtractOutcome → Option String
  | .throws => none
  | .returns s => some s

/-- The crop-estimation numbers recorded under details["estimated"]. -/
structure EstParams where
  x1 : Int
  y1 : Int
  x2 : Int
  y2 : Int
  score : Rat
  scale : Rat
deriving DecidableEq

/-- Behaviour of the external recovery pipeline inside the try block of
step 3: `estimate_crop_parameters` may raise before details["estimated"]
is set (estFail); `recover_crop` or the re-extraction may raise after it
(laterFail); or re-extraction returns a decoded string (success). -/
inductive RecoveryBehavior where
  | estFail : String → RecoveryBehavior
  | laterFail : EstParams → String → RecoveryBehavior
  | success : EstParams → String → RecoveryBehavior
deriving DecidableEq

/-- The `details` dict of a verify call: which keys are present. -/
structure RecoveryDetails where
  estimated : Option EstParams := none
  recovered : Bool := false
  recovery_error : Option String := none
deriving DecidableEq

/-- Python dict truthiness of `details`: empty iff no key was ever set. -/
def RecoveryDetails.isEmpty (d : RecoveryDetails) : Bool :=
  d.estimated.isNone && !d.recovered && d.recovery_error.isNone

structure VerifyResponse where
  watermark_found : Bool
  matches_expected : Bool
  status : String
  extracted_watermark : Option String
  phash_distance : Nat
  details : Option RecoveryDetails
deriving DecidableEq

/-- Result of steps 2-3 of `verify_endpoint`: the final `extracted`
value, the `details` dict, and whether the recovery pipeline
(`estimate_crop_parameters` / `recover_crop` / re-extraction) ran. -/
structure RecoveryPhaseOut where
  extracted : Option String
  details : RecoveryDetails
  invoked : Bool
deriving DecidableEq

/-- Steps 2-3 of `verify_endpoint`: the recovery `if` / `elif` around the
try/except block. -/
def recoveryPhase (expectedText : String) (extracted0 : Option String)
    (tryRecover refOk : Bool) (recovery : RecoveryBehavior) : RecoveryPhaseOut :=
  if extracted0 ≠ some expectedText ∧ tryRecover = true ∧ refOk = true then
    match recovery with
    | .estFail msg =>
        ⟨extracted0, { recovery_error := some msg }, true⟩
    | .laterFail est msg =>
        ⟨extracted0, { estimated := some est, recovery_error := some msg }, true⟩
    | .success est reStr =>
        if reStr = expectedText then
          ⟨some reStr, { estimated := some est, recovered := true }, true⟩
        else
          ⟨extracted0, { estimated := some est }, true⟩
  else if extracted0 ≠ some expectedText ∧ tryRecover = true ∧ refOk = false then
    ⟨extracted0,
      { recovery_error := some "Reference embedded PNG not found on server." }, false⟩
  else
    ⟨extracted0, {}, false⟩

/-- Steps 2-5 of `verify_endpoint` after the record fields are read:
direct extraction, optional recovery, status decision and response
assembly; the Bool reports whether any recovery operation was invoked. -/
def verifyCore (expectedText refPhash : String) (edited : Image)
    (direct : ExtractOutcome) (tryRecover refOk : Bool)
    (recovery : RecoveryBehavior) : VerifyResponse × Bool :=
  let po := recoveryPhase expectedText (directResult direct) tryRecover refOk recovery
  let dist := hamming_distance_hex refPhash (phash edited)
  let found : Bool := decide (po.extracted = some expectedText)
  let status := if found then
      (if dist = 0 then "same" else "modified_but_watermark_intact")
    else "tampered_or_not_watermarked"
  ({ watermark_found := found
     matches_expected := found
     status := status
     extracted_watermark := if found then po.extracted else none
     phash_distance := dist
     details := if po.details.isEmpty then none else some po.details }, po.invoked)

inductive VerifyResult where
  | httpError : Nat → String → VerifyResult
  | ok : VerifyResponse → VerifyResult
deriving DecidableEq

/-- `src/main.py` `verify_endpoint`: look up the record (404 when
missing), read its fields, decode the upload (400 when undecodable),
compute whether the persisted reference is usable, and run the core.
Field reads use a default for ill-keyed records; every record inserted
by `embed_endpoint` carries all keys. -/
def verify_endpoint (db : DB) (watermarkId : String) (edited : Option Image)
    (direct : ExtractOutcome) (tryRecover : Bool) (fsRefExists : Bool)
    (recovery : RecoveryBehavior) : VerifyResult × Bool :=
  match dbGet db watermarkId with
  | none => (.httpError 404 "Unknown watermark_id", false)
  | some meta =>
    let expectedText := (recGetStr meta "wm_text").getD ""
    let refPhash := (recGetStr meta "phash").getD ""
    let refPath := recGetStr meta "file_path"
    match edited with
    | none => (.httpError 400 "Invalid image file", false)
    | some img =>
      let refOk := (match refPath with
        | some p => !(p == "")
        | none => false) && fsRefExists
      let core := verifyCore expectedText refPhash img direct tryRecover refOk recovery
      (.ok core.1, core.2)

/-- C4: a verify call with try_recover = false never invokes any
geometric-recovery operation, and when direct extraction does not match
it terminates directly as NotFound (tampered status, empty details). -/
theorem c4_recovery_gating (expectedText refPhash : String) (edited : Image)
    (direct : ExtractOutcome) (refOk : Bool) (recovery : RecoveryBehavior) :
    (verifyCore expectedText refPhash edited direct false refOk recovery).2 = false
  ∧ (directResult direct ≠ some expectedText →
      (verifyCore expectedText refPhash edited direct false refOk recovery).1.watermark_found = false
      ∧ (verifyCore expectedText refPhash edited direct false refOk recovery).1.status
          = "tampered_or_not_watermarked"
      ∧ (verifyCore expectedText refPhash edited direct false refOk recovery).1.details = none) := by
  have hpo : recoveryPhase expectedText (directResult direct) false refOk recovery
      = ⟨directResult direct, {}, false⟩ := by
    unfold recoveryPhase
    rw [if_neg (by simp), if_neg (by simp)]
  constructor
  · simp only [verifyCore, hpo]
  · intro hmm
    simp only [verifyCore, hpo]
    refine ⟨?_, ?_, ?_⟩
    · simp [hmm]
    · simp [hmm]
    · simp [RecoveryDetails.isEmpty]

/-- Witness for C4 at a concrete input where direct extraction fails. -/
theorem c4_recovery_gating_witness :
    (verifyCore "tok" "00" sampleImage .throws false true (.estFail "boom")).2 = false
  ∧ (verifyCore "tok" "00" sampleImage .throws false true (.estFail "boom")).1.status
      = "tampered_or_not_watermarked" :=
  ⟨(c4_recovery_gating "tok" "00" sampleImage .throws true (.estFail "boom")).1,
   ((c4_recovery_gating "tok" "00" sampleImage .throws true (.estFail "boom")).2
      (by simp [directResult])).2.1⟩

/-- C5: extracted_watermark is populated only when the final payload
equals the expected one (and then watermark_found is true); on NotFound
it is null; matches_expected always coincides with watermark_found. -/
theorem c5_extracted_watermark_only_on_found (expectedText refPhash : String)
    (edited : Image) (direct : ExtractOutcome) (tryRecover refOk : Bool)
    (recovery : RecoveryBehavior) :
    (∀ s, (verifyCore expectedText refPhash edited direct tryRecover refOk recovery).1.extracted_watermark
          = some s →
        s = expectedText
        ∧ (verifyCore expectedText refPhash edited direct tryRecover refOk recovery).1.watermark_found = true)
  ∧ ((verifyCore expectedText refPhash edited direct tryRecover refOk recovery).1.watermark_found = false →
      (verifyCore expectedText refPhash edited direct tryRecover refOk recovery).1.extracted_watermark = none)
  ∧ (verifyCore expectedText refPhash edited direct tryRecover refOk recovery).1.matches_expected
      = (verifyCore expectedText refPhash edited direct tryRecover refOk recovery).1.watermark_found := by
  by_cases h : (recoveryPhase expectedText (directResult direct) tryRecover refOk recovery).extracted
      = some expectedText
  · refine ⟨?_, ?_, ?_⟩
    · intro s hs
      simp only [verifyCore, h, decide_True, if_true] at hs
      injection hs with hv
      refine ⟨hv.symm, ?_⟩
      simp [verifyCore, h]
    · intro hfound
      simp only [verifyCore, decide_eq_true_eq, h, decide_True] at hfound
      cases hfound
    · simp only [verifyCore]
  · refine ⟨?_, ?_, ?_⟩
    · intro s hs
      simp [verifyCore, h] at hs
    · intro hfound
      simp [verifyCore, h]
    · simp only [verifyCore]

/-- Witness for C5 at a concrete input. -/
theorem c5_extracted_watermark_only_on_found_witness :
    (verifyCore "tok" "00" sampleImage .throws true true (.estFail "boom")).1.matches_expected
      = (verifyCore "tok" "00" sampleImage .throws true true (.estFail "boom")).1.watermark_found :=
  (c5_extracted_watermark_only_on_found "tok" "00" sampleImage .throws true true (.estFail "boom")).2.2

/-- C8: the status is "same" exactly when the payload matched and the
perceptual distance is 0, "modified_but_watermark_intact" exactly when it
matched and the distance is positive, and "tampered_or_not_watermarked"
exactly when the payload was not matched. -/
theorem c8_status_classification (expectedText refPhash : String)
    (edited : Image) (direct : ExtractOutcome) (tryRecover refOk : Bool)
    (recovery : RecoveryBehavior) :
    ((verifyCore expectedText refPhash edited direct tryRecover refOk recovery).1.status = "same"
      ↔ ((verifyCore expectedText refPhash edited direct tryRecover refOk recovery).1.matches_expected = true
        ∧ (verifyCore expectedText refPhash edited direct tryRecover refOk recovery).1.phash_distance = 0))
  ∧ ((verifyCore expectedText refPhash edited direct tryRecover refOk recovery).1.status
        = "modified_but_watermark_intact"
      ↔ ((verifyCore expectedText refPhash edited direct tryRecover refOk recovery).1.matches_expected = true
        ∧ 0 < (verifyCore expectedText refPhash edited direct tryRecover refOk recovery).1.phash_distance))
  ∧ ((verifyCore expectedText refPhash edited direct tryRecover refOk recovery).1.status
        = "tampered_or_not_watermarked"
      ↔ (verifyCore expectedText refPhash edited direct tryRecover refOk recovery).1.matches_expected = false) := by
  have hdisteq : (verifyCore expectedText refPhash edited direct tryRecover refOk recovery).1.phash_distance
      = hamming_distance_hex refPhash (phash edited) := by
    simp only [verifyCore]
  by_cases h : (recoveryPhase expectedText (directResult direct) tryRecover refOk recovery).extracted
      = some expectedText
  · have hm : (verifyCore expectedText refPhash edited direct tryRecover refOk recovery).1.matches_expected
        = true := by
      simp [verifyCore, h]
    by_cases hdist : hamming_distance_hex refPhash (phash edited) = 0
    · have hst : (verifyCore expectedText refPhash edited direct tryRecover refOk recovery).1.status
          = "same" := by
        simp [verifyCore, h, hdist]
      rw [hst, hm, hdisteq, hdist]
      refine ⟨by simp, ?_, ?_⟩ <;> simp
    · have hst : (verifyCore expectedText refPhash edited direct tryRecover refOk recovery).1.status
          = "modified_but_watermark_intact" := by
        simp [verifyCore, h, hdist]
      have hpos : 0 < hamming_distance_hex refPhash (phash edited) :=
        Nat.pos_of_ne_zero hdist
      rw [hst, hm, hdisteq]
      refine ⟨?_, ?_, ?_⟩ <;> simp [hdist, hpos]
  · have hm : (verifyCore expectedText refPhash edited direct tryRecover refOk recovery).1.matches_expected
        = false := by
      simp [verifyCore, h]
    have hst : (verifyCore expectedText refPhash edited direct tryRecover refOk recovery).1.status
        = "tampered_or_not_watermarked" := by
      simp [verifyCore, h]
    rw [hst, hm, hdisteq]
    refine ⟨?_, ?_, ?_⟩ <;> simp
/-- Witness for C8 at a concrete input. -/
theorem c8_status_classification_witness :
    (verifyCore "tok" "00" sampleImage .throws true true (.estFail "boom")).1.status
        = "tampered_or_not_watermarked"
      ↔ (verifyCore "tok" "00" sampleImage .throws true true (.estFail "boom")).1.matches_expected
        = false :=
  (c8_status_classification "tok" "00" sampleImage .throws true true (.estFail "boom")).2.2

/-- C7: when the recovery attempt raises internally (at estimation or
later), the verify call still returns an ok response — a NotFound /
tampered_or_not_watermarked result whose details carry the error text —
rather than failing the request. -/
theorem c7_recovery_error_degrades (db : DB) (wid : String) (meta : Record)
    (img : Image) (direct : ExtractOutcome) (est : EstParams) (msg : String)
    (recovery : RecoveryBehavior) (p : String)
    (hmeta : dbGet db wid = some meta)
    (hmismatch : directResult direct ≠ some ((recGetStr meta "wm_text").getD ""))
    (hpath : recGetStr meta "file_path" = some p) (hp : p ≠ "")
    (hrec : recovery = .estFail msg ∨ recovery = .laterFail est msg) :
    ∃ d : RecoveryDetails, d.recovery_error = some msg
      ∧ verify_endpoint db wid (some img) direct true true recovery
        = (.ok { watermark_found := false
                 matches_expected := false
                 status := "tampered_or_not_watermarked"
                 extracted_watermark := none
                 phash_distance :=
                   hamming_distance_hex ((recGetStr meta "phash").getD "") (phash img)
                 details := some d }, true) := by
  have hbeq : (p == "") = false := beq_eq_false_iff_ne.mpr hp
  have hfound : decide (directResult direct = some ((recGetStr meta "wm_text").getD ""))
      = false := decide_eq_false hmismatch
  rcases hrec with rfl | rfl
  · refine ⟨{ recovery_error := some msg }, rfl, ?_⟩
    have hpo : recoveryPhase ((recGetStr meta "wm_text").getD "") (directResult direct)
        true true (.estFail msg)
        = ⟨directResult direct, { recovery_error := some msg }, true⟩ := by
      unfold recoveryPhase
      rw [if_pos ⟨hmismatch, rfl, rfl⟩]
    simp [verify_endpoint, verifyCore, hmeta, hpath, hbeq, hpo, hfound,
      RecoveryDetails.isEmpty]
  · refine ⟨{ estimated := some est, recovery_error := some msg }, rfl, ?_⟩
    have hpo : recoveryPhase ((recGetStr meta "wm_text").getD "") (directResult direct)
        true true (.laterFail est msg)
        = ⟨directResult direct, { estimated := some est, recovery_error := some msg }, true⟩ := by
      unfold recoveryPhase
      rw [if_pos ⟨hmismatch, rfl, rfl⟩]
    simp [verify_endpoint, verifyCore, hmeta, hpath, hbeq, hpo, hfound,
      RecoveryDetails.isEmpty]

/-- A concrete store for the C7 witness. -/
def sampleDB : DB :=
  [("aaaa-bbbb", mkRecord "tok" 255 "0000000000000000" (4, 6)
      "storage/embeds/aaaa-bbbb.png")]

/-- Witness for C7 at a concrete input whose recovery raises. -/
theorem c7_recovery_error_degrades_witness :
    ∃ d : RecoveryDetails, d.recovery_error = some "boom"
      ∧ verify_endpoint sampleDB "aaaa-bbbb" (some sampleImage) .throws true true
          (.estFail "boom")
        = (.ok { watermark_found := false
                 matches_expected := false
                 status := "tampered_or_not_watermarked"
                 extracted_watermark := none
                 phash_distance :=
                   hamming_distance_hex
                     ((recGetStr (mkRecord "tok" 255 "0000000000000000" (4, 6)
                        "storage/embeds/aaaa-bbbb.png") "phash").getD "")
                     (phash sampleImage)
                 details := some d }, true) :=
  c7_recovery_error_degrades sampleDB "aaaa-bbbb"
    (mkRecord "tok" 255 "0000000000000000" (4, 6) "storage/embeds/aaaa-bbbb.png")
    sampleImage .throws ⟨0, 0, 0, 0, 0, 0⟩ "boom" (.estFail "boom")
    "storage/embeds/aaaa-bbbb.png" rfl (by decide) rfl (by decide) (Or.inl rfl)

/- ### Adapters (`src/watermark_adapters.py`) -/

/-- `BlindWatermarkAdapter.extract`: run the external decode inside
try/except; on success compare against metadata["wm_text"] and return the
payload only when equal, else None; on exception return None. -/
def BlindWatermarkAdapter.extract (backend : ExtractOutcome)
    (metaWmText : String) : Option String :=
  match backend with
  | .throws => none
  | .returns s => if s = metaWmText then some s else none

/-- `TrustmarkAdapter.extract`: return the decoded secret whenever the
decoder reports a watermark present — the metadata payload is never
consulted. -/
def TrustmarkAdapter.extract (wmSecret : String) (wmPresent : Bool)
    (metaWmText : String) : Option String :=
  if wmPresent then some wmSecret else none

/-- C9 counterexample: TrustmarkAdapter.extract returns a payload that
differs from the one in the supplied metadata. -/
theorem c9_trustmark_returns_mismatched_payload :
    TrustmarkAdapter.extract "WM-other" true "WM-expected" = some "WM-other"
  ∧ "WM-other" ≠ "WM-expected"
  ∧ TrustmarkAdapter.extract "WM-other" true "WM-expected" ≠ none := by
  refine ⟨rfl, by decide, by decide⟩

/-- C9 amended: BlindWatermarkAdapter.extract returns None rather than
raising both when the decoder throws and when the recovered payload
differs from metadata's wm_text, and otherwise returns exactly the
metadata payload — never a different one. TrustmarkAdapter.extract does
not satisfy this: it returns whatever secret the decoder reports. -/
theorem c9_amended_blind_extract_absent_or_expected (backend : ExtractOutcome)
    (metaWmText : String) :
    BlindWatermarkAdapter.extract backend metaWmText = none
  ∨ BlindWatermarkAdapter.extract backend metaWmText = some metaWmText := by
  cases backend with
  | throws => exact Or.inl rfl
  | returns s =>
    by_cases hs : s = metaWmText
    · subst hs
      right
      simp [BlindWatermarkAdapter.extract]
    · left
      simp [BlindWatermarkAdapter.extract, hs]
